import Mathlib

/-!
Shallow embedding of the `whisper` session-lifecycle FFI (src/ffi.rs) and the
packet-forward loop (src/main.rs).

External collaborators (the tokio runtime, hyper's `Uri::try_from`,
`connect_to_wisp`, `tun2::create_as_async`, `start_whisper`, the mpsc channel
send, the wisp multiplexor's `client_new_stream` and
`tokio::io::copy_bidirectional`) are modelled as environment records whose
fields give the outcome of each external call; the embedded functions
reproduce the control flow and state updates of the Rust source around those
calls.  The global `WHISPER` mutex contents
`(Option<WhisperInitState>, Option<WhisperRunningState>)` are threaded as an
explicit state value.
-/

namespace Whisper

/-- Opaque handle to the wisp multiplexor (`WhisperMux`). -/
abbrev Mux := Nat

/-- Opaque handle to the TUN device (`AsyncDevice`). -/
abbrev Tun := Nat

/-- The remote socket address, modelled by its textual form
(`SocketAddr::to_string`). -/
abbrev SocketAddr := String

/-- Identifier of one `unbounded_channel` (both ends carry the same id). -/
abbrev Channel := Nat

/-- `struct WhisperInitState` of src/ffi.rs. -/
structure WhisperInitState where
  mux : Mux
  tun : Tun
  mtu : Nat
  socketaddr : SocketAddr
deriving DecidableEq, Repr

/-- `struct WhisperRunningState` of src/ffi.rs. -/
structure WhisperRunningState where
  socketaddr : SocketAddr
  channel : Channel
deriving DecidableEq, Repr

/-- Contents of the global
`WHISPER: Mutex<(Option<WhisperInitState>, Option<WhisperRunningState>)>`. -/
abbrev WhisperState := Option WhisperInitState × Option WhisperRunningState

/-- The `WhisperError` variants reached from src/ffi.rs (`Other` covers both
`WhisperError::Other` and the boxed `WhisperError::other` wrapper). -/
inductive WhisperError
  | AlreadyInitialized
  | AlreadyStarted
  | NotInitialized
  | NotStarted
  | NoSocketAddr
  | Other (msg : String)
deriving DecidableEq, Repr

/-- `Result::is_ok`. -/
def exceptOk {ε α : Type} : Except ε α → Bool
  | .ok _ => true
  | .error _ => false

/-! ### UTF-8 lossy decoding (`CStr::to_string_lossy`)

`whisper_init` converts the C string bytes with `to_string_lossy`, which
decodes UTF-8 and replaces each maximal invalid subpart by U+FFFD. -/

/-- Is `b` a UTF-8 continuation byte (`0x80..=0xBF`)? -/
def isCont (b : Nat) : Bool := decide (0x80 ≤ b ∧ b ≤ 0xBF)

/-- Result of decoding one UTF-8 sequence starting at the current byte:
either a decoded scalar value together with the number of extra bytes
consumed, or an invalid maximal subpart of `1 + extra` bytes that becomes one
replacement character. -/
inductive DecodeRes
  | decoded (c : Char) (extra : Nat)
  | invalid (extra : Nat)
deriving Repr

/-- Decode one UTF-8 sequence whose first byte is `b0` and whose following
bytes are `rest` (maximal-subpart policy, as in Rust's `from_utf8_lossy`). -/
def utf8DecodeOne (b0 : Nat) (rest : List Nat) : DecodeRes :=
  if b0 ≤ 0x7F then .decoded (Char.ofNat b0) 0
  else if 0xC2 ≤ b0 ∧ b0 ≤ 0xDF then
    match rest with
    | b1 :: _ =>
      if isCont b1 then .decoded (Char.ofNat ((b0 - 0xC0) * 0x40 + (b1 - 0x80))) 1
      else .invalid 0
    | [] => .invalid 0
  else if 0xE0 ≤ b0 ∧ b0 ≤ 0xEF then
    let lo2 := if b0 = 0xE0 then 0xA0 else 0x80
    let hi2 := if b0 = 0xED then 0x9F else 0xBF
    match rest with
    | b1 :: rest1 =>
      if lo2 ≤ b1 ∧ b1 ≤ hi2 then
        match rest1 with
        | b2 :: _ =>
          if isCont b2 then
            .decoded (Char.ofNat ((b0 - 0xE0) * 0x1000 + (b1 - 0x80) * 0x40 + (b2 - 0x80))) 2
          else .invalid 1
        | [] => .invalid 1
      else .invalid 0
    | [] => .invalid 0
  else if 0xF0 ≤ b0 ∧ b0 ≤ 0xF4 then
    let lo2 := if b0 = 0xF0 then 0x90 else 0x80
    let hi2 := if b0 = 0xF4 then 0x8F else 0xBF
    match rest with
    | b1 :: rest1 =>
      if lo2 ≤ b1 ∧ b1 ≤ hi2 then
        match rest1 with
        | b2 :: rest2 =>
          if isCont b2 then
            match rest2 with
            | b3 :: _ =>
              if isCont b3 then
                .decoded (Char.ofNat ((b0 - 0xF0) * 0x40000 + (b1 - 0x80) * 0x1000 +
                  (b2 - 0x80) * 0x40 + (b3 - 0x80))) 3
              else .invalid 2
            | [] => .invalid 2
          else .invalid 1
        | [] => .invalid 1
      else .invalid 0
    | [] => .invalid 0
  else .invalid 0

/-- U+FFFD. -/
def replacementChar : Char := Char.ofNat 0xFFFD

/-- Lossy UTF-8 decoding, structurally recursive on a fuel bound (each step
consumes at least one byte, so `fuel = length` suffices). -/
def utf8LossyFuel : Nat → List Nat → List Char
  | 0, _ => []
  | _ + 1, [] => []
  | fuel + 1, b :: rest =>
    match utf8DecodeOne b rest with
    | .decoded c k => c :: utf8LossyFuel fuel (rest.drop k)
    | .invalid k => replacementChar :: utf8LossyFuel fuel (rest.drop k)

/-- Lossy UTF-8 decoding of a byte list to characters. -/
def utf8Lossy (l : List Nat) : List Char := utf8LossyFuel l.length l

/-- Does the byte list form valid UTF-8 (no replacement needed)?
Structurally recursive on the same fuel bound. -/
def validUtf8Fuel : Nat → List Nat → Bool
  | 0, _ => true
  | _ + 1, [] => true
  | fuel + 1, b :: rest =>
    match utf8DecodeOne b rest with
    | .decoded _ k => validUtf8Fuel fuel (rest.drop k)
    | .invalid _ => false

/-- Does the byte list form valid UTF-8 (no replacement needed)? -/
def validUtf8 (l : List Nat) : Bool := validUtf8Fuel l.length l

/-! ### whisper_init -/

/-- Outcomes of the external calls made during `whisper_init`:
`runtimeOk` is `Runtime::new`, `tryUri` is hyper's `Uri::try_from`,
`connectToWisp` is `connect_to_wisp` (yielding the mux and the optional
socket address), `createTun` is `tun2::create_as_async` on the raw fd. -/
structure InitEnv where
  runtimeOk : Bool
  tryUri : String → Option String
  connectToWisp : String → Except String (Mux × Option SocketAddr)
  createTun : Int → Option Tun

/-- Which external resources were touched during a `whisper_init` call:
was the wisp transport connection established, was the TUN device created. -/
structure InitEffects where
  connected : Bool
  tunCreated : Bool
deriving DecidableEq, Repr

/-- The `rt.block_on(async { ... })` body of `whisper_init` (src/ffi.rs
lines 47-72), with the effects it performed. -/
def whisperInitCore (fd : Int) (ws : String) (mtu : Nat) (env : InitEnv)
    (st : WhisperState) : Except WhisperError Unit × WhisperState × InitEffects :=
  if st.1.isSome || st.2.isSome then
    (.error .AlreadyInitialized, st, ⟨false, false⟩)
  else
    match env.tryUri ws with
    | none => (.error (.Other "uri"), st, ⟨false, false⟩)
    | some uri =>
      match env.connectToWisp uri with
      | .error e => (.error (.Other e), st, ⟨false, false⟩)
      | .ok (mux, saddr) =>
        match env.createTun fd with
        | none => (.error (.Other "tun"), st, ⟨true, false⟩)
        | some tun =>
          match saddr with
          | none => (.error .NoSocketAddr, st, ⟨true, true⟩)
          | some sa => (.ok (), (some ⟨mux, tun, mtu, sa⟩, st.2), ⟨true, true⟩)

/-- `whisper_init` after the C string has been converted: runtime creation
then the async core, returning `is_ok()`. -/
def whisperInitWithStr (fd : Int) (s : String) (mtu : Nat) (env : InitEnv)
    (st : WhisperState) : Bool × WhisperState × InitEffects :=
  if env.runtimeOk then
    match whisperInitCore fd s mtu env st with
    | (r, st', eff) => (exceptOk r, st', eff)
  else (false, st, ⟨false, false⟩)

/-- `whisper_init` (src/ffi.rs lines 39-77).  The `ws` pointer is `none` when
null; otherwise its bytes are decoded lossily before anything else. -/
def whisper_init (fd : Int) (ws : Option (List Nat)) (mtu : Nat) (env : InitEnv)
    (st : WhisperState) : Bool × WhisperState × InitEffects :=
  match ws with
  | none => (false, st, ⟨false, false⟩)
  | some bytes => whisperInitWithStr fd (String.mk (utf8Lossy bytes)) mtu env st

/-! ### whisper_get_ws_ip -/

/-- `CString::new`: fails when the string holds an interior NUL byte. -/
def cstringNew (s : String) : Option String :=
  if s.toList.contains (Char.ofNat 0) then none else some s

/-- `whisper_get_ws_ip` (src/ffi.rs lines 80-99): `none` models a null
return, `some s` a freshly allocated C string holding `s`. -/
def whisper_get_ws_ip (runtimeOk : Bool) (st : WhisperState) : Option String :=
  if runtimeOk then
    let ip : Except WhisperError String :=
      match st.1 with
      | some init =>
        match cstringNew init.socketaddr with
        | some c => .ok c
        | none => .error (.Other "nul")
      | none =>
        match st.2 with
        | some running =>
          match cstringNew running.socketaddr with
          | some c => .ok c
          | none => .error (.Other "nul")
        | none => .error .NotInitialized
    match ip with
    | .ok s => some s
    | .error _ => none
  else none

/-! ### whisper_start -/

/-- Outcomes of the external calls made during `whisper_start`:
`runtimeOk` is `Runtime::new`, `freshChannel` the id of the
`unbounded_channel` pair, `startWhisper` the awaited result of
`start_whisper(mux, tun, mtu, rx)`. -/
structure StartEnv where
  runtimeOk : Bool
  freshChannel : Channel
  startWhisper : Mux → Tun → Nat → Channel → Except String Unit

/-- The `rt.block_on(async { ... })` body of `whisper_start` (src/ffi.rs
lines 114-133).  Note that `whisper.0.take()` and `whisper.1.replace(...)`
happen before `start_whisper` is awaited. -/
def whisperStartCore (env : StartEnv) (st : WhisperState) :
    Except WhisperError Unit × WhisperState :=
  if st.2.isSome then (.error .AlreadyStarted, st)
  else
    match st.1 with
    | none => (.error .NotInitialized, st)
    | some init =>
      let st' : WhisperState := (none, some ⟨init.socketaddr, env.freshChannel⟩)
      match env.startWhisper init.mux init.tun init.mtu env.freshChannel with
      | .ok _ => (.ok (), st')
      | .error e => (.error (.Other e), st')

/-- `whisper_start` (src/ffi.rs lines 112-138). -/
def whisper_start (env : StartEnv) (st : WhisperState) : Bool × WhisperState :=
  if env.runtimeOk then
    match whisperStartCore env st with
    | (r, st') => (exceptOk r, st')
  else (false, st)

/-! ### whisper_stop -/

/-- Outcomes of the external calls made during `whisper_stop`: `runtimeOk`
is `Runtime::new`, `sendOk ch` the result of `channel.send(EndFut)` on the
stored sender `ch` (false when the receiver is gone). -/
structure StopEnv where
  runtimeOk : Bool
  sendOk : Channel → Bool

/-- The `rt.block_on(async { ... })` body of `whisper_stop` (src/ffi.rs
lines 143-154).  Note that `whisper.1.take()` happens before the send. -/
def whisperStopCore (env : StopEnv) (st : WhisperState) :
    Except WhisperError Unit × WhisperState :=
  match st.2 with
  | none => (.error .NotStarted, st)
  | some running =>
    let st' : WhisperState := (st.1, none)
    if env.sendOk running.channel then (.ok (), st')
    else (.error (.Other "send"), st')

/-- `whisper_stop` (src/ffi.rs lines 141-159). -/
def whisper_stop (env : StopEnv) (st : WhisperState) : Bool × WhisperState :=
  if env.runtimeOk then
    match whisperStopCore env st with
    | (r, st') => (exceptOk r, st')
  else (false, st)

/-! ### Call sequences over the global state -/

/-- One FFI call together with the outcomes of its external collaborators. -/
inductive WhisperOp
  | opInit (fd : Int) (ws : Option (List Nat)) (mtu : Nat) (env : InitEnv)
  | opStart (env : StartEnv)
  | opStop (env : StopEnv)
  | opGetWsIp (runtimeOk : Bool)

/-- Effect of one FFI call on the global `WHISPER` state. -/
def stepOp (st : WhisperState) : WhisperOp → WhisperState
  | .opInit fd ws mtu env => (whisper_init fd ws mtu env st).2.1
  | .opStart env => (whisper_start env st).2
  | .opStop env => (whisper_stop env st).2
  | .opGetWsIp _ => st

/-- State after a sequence of FFI calls starting from the empty
`(None, None)` state. -/
def execOps (ops : List WhisperOp) : WhisperState :=
  ops.foldl stepOp (none, none)

/-- The `Initialized` and `Running` components are never populated at the
same time. -/
def MutuallyExclusive (st : WhisperState) : Prop :=
  ¬(st.1.isSome ∧ st.2.isSome)

end Whisper

namespace Forward

/-! ### The packet-forward loop of src/main.rs -/

/-- `wisp_mux::StreamType` as used by the loop. -/
inductive StreamType
  | tcp
  | udp
deriving DecidableEq, Repr

/-- A connection object yielded by `ip_stack.accept()`: its kind, its peer
address (`peer_addr().ip().to_string()` and `peer_addr().port()`), and an id
standing for the connection object moved into the bridge task.  `otherS`
covers every non-TCP/UDP variant of `IpStackStream`. -/
inductive IpStackStream
  | tcpS (peerIp : String) (peerPort : Nat) (connId : Nat)
  | udpS (peerIp : String) (peerPort : Nat) (connId : Nat)
  | otherS (connId : Nat)
deriving DecidableEq, Repr

/-- One turn of `ip_stack.accept().await?`: a connection, or an accept
error (which the `?` propagates). -/
inductive AcceptEvent
  | accepted (s : IpStackStream)
  | acceptErr (e : String)
deriving DecidableEq, Repr

/-- Outcomes of the external calls of the forward loop:
`clientNewStream k ip port` is `mux.client_new_stream(k, ip, port)` (a
logical-stream id on success), `copyBidirectional conn stream` the result of
`copy_bidirectional` inside a spawned bridge task. -/
structure ForwardEnv where
  clientNewStream : StreamType → String → Nat → Except String Nat
  copyBidirectional : Nat → Nat → Except String Nat

/-- A spawned bridge task: the local connection and the logical stream it
owns. -/
structure Bridge where
  connId : Nat
  streamId : Nat
deriving DecidableEq, Repr

/-- What one loop iteration did with an accepted connection. -/
inductive StepOut
  | spawnedB (b : Bridge)
  | ignoredB
  | fatalB (e : String)
deriving DecidableEq, Repr

/-- The body of the `match ip_stack.accept().await?` arms (src/main.rs
lines 62-88): the list of stream-open requests issued (each the exact
`(StreamType, ip, port)` key passed to `client_new_stream`), and the result:
a spawned bridge, an ignored connection, or an error propagated by `?`. -/
def forwardHandle (env : ForwardEnv) :
    IpStackStream → List (StreamType × String × Nat) × StepOut
  | .tcpS ip port cid =>
    ([(.tcp, ip, port)],
      match env.clientNewStream .tcp ip port with
      | .ok sid => .spawnedB ⟨cid, sid⟩
      | .error e => .fatalB e)
  | .udpS ip port cid =>
    ([(.udp, ip, port)],
      match env.clientNewStream .udp ip port with
      | .ok sid => .spawnedB ⟨cid, sid⟩
      | .error e => .fatalB e)
  | .otherS _ => ([], .ignoredB)

/-- The accept loop (src/main.rs lines 59-90) run over a finite prefix of
accept events: the bridges spawned so far and `some e` when the loop
terminated by propagating error `e` (`none` while it is still accepting). -/
def forwardLoop (env : ForwardEnv) : List AcceptEvent → List Bridge × Option String
  | [] => ([], none)
  | .acceptErr e :: _ => ([], some e)
  | .accepted s :: rest =>
    match (forwardHandle env s).2 with
    | .spawnedB b =>
      match forwardLoop env rest with
      | (bs, t) => (b :: bs, t)
    | .ignoredB => forwardLoop env rest
    | .fatalB e => ([], some e)

/-- A spawned bridge task (src/main.rs lines 69-73 and 82-86):
`copy_bidirectional` runs to completion and an error is only logged; the
task's sole observable is the logged message. -/
def runBridge (env : ForwardEnv) (b : Bridge) : Option String :=
  match env.copyBidirectional b.connId b.streamId with
  | .ok _ => none
  | .error e => some e

/-! ### Helper lemmas -/

/-- `forwardHandle` consults only `client_new_stream`, never the copy
outcomes. -/
lemma forwardHandle_congr (env env' : ForwardEnv)
    (h : env.clientNewStream = env'.clientNewStream) (s : IpStackStream) :
    forwardHandle env s = forwardHandle env' s := by
  cases s <;> simp [forwardHandle, h]

/-- The whole forward loop consults only `client_new_stream`, never the
copy outcomes of the spawned bridges. -/
lemma forwardLoop_congr (env env' : ForwardEnv)
    (h : env.clientNewStream = env'.clientNewStream) :
    ∀ evs, forwardLoop env evs = forwardLoop env' evs := by
  intro evs
  induction evs with
  | nil => rfl
  | cons ev rest ih =>
    cases ev with
    | acceptErr e => rfl
    | accepted s =>
      simp only [forwardLoop]
      rw [forwardHandle_congr env env' h s, ih]

/-! ### Claim theorems -/

/-- Environment for the C7 counterexample: opening a logical stream fails;
copying succeeds. -/
def c7XEnv : ForwardEnv := ⟨fun _ _ _ => .error "open failed", fun _ _ => .ok 0⟩

/-- Two accepted TCP connections for the C7 counterexample. -/
def c7XEvents : List AcceptEvent :=
  [.accepted (.tcpS "1.2.3.4" 443 0), .accepted (.tcpS "5.6.7.8" 80 1)]

/-- C7 counterexample: a per-connection error while opening the first
connection's logical stream terminates the forward loop (the `?` operator
propagates it out of the loop), so the second connection's bridge is never
spawned — the error is not contained to that connection's bridge. -/
theorem c7_counterexample :
    forwardLoop c7XEnv c7XEvents = ([], some "open failed") := rfl

/-- C7 (amended): an error of `copy_bidirectional` inside a spawned bridge
is only logged and affects nothing else — the forward loop's entire outcome
(bridges spawned and termination) is independent of every copy outcome, and
a bridge task always runs to completion yielding at most a logged message;
but an error while opening a connection's logical stream is propagated and
terminates the forward loop with that error. -/
theorem c7_amended_error_containment (env env' : ForwardEnv)
    (evs : List AcceptEvent)
    (h : env.clientNewStream = env'.clientNewStream) :
    forwardLoop env evs = forwardLoop env' evs ∧
    (∀ b, runBridge env b = none ∨
      ∃ e, env.copyBidirectional b.connId b.streamId = .error e ∧
        runBridge env b = some e) ∧
    (∀ ip port cid e rest, env.clientNewStream .tcp ip port = .error e →
      forwardLoop env (.accepted (.tcpS ip port cid) :: rest) = ([], some e)) ∧
    (∀ ip port cid e rest, env.clientNewStream .udp ip port = .error e →
      forwardLoop env (.accepted (.udpS ip port cid) :: rest) = ([], some e)) := by
  refine ⟨forwardLoop_congr env env' h evs, fun b => ?_,
    fun ip port cid e rest hf => ?_, fun ip port cid e rest hf => ?_⟩
  · unfold runBridge
    cases hc : env.copyBidirectional b.connId b.streamId with
    | ok n => exact Or.inl rfl
    | error e => exact Or.inr ⟨e, rfl, rfl⟩
  · simp [forwardLoop, forwardHandle, hf]
  · simp [forwardLoop, forwardHandle, hf]

/-- Environment A for the C7 witness: stream opening succeeds, copying
succeeds. -/
def c7EnvA : ForwardEnv := ⟨fun _ _ _ => .ok 5, fun _ _ => .ok 0⟩

/-- Environment B for the C7 witness: same stream opening, but every copy
fails. -/
def c7EnvB : ForwardEnv := ⟨fun _ _ _ => .ok 5, fun _ _ => .error "copy error"⟩

/-- Environment C for the C7 witness: stream opening fails. -/
def c7EnvC : ForwardEnv := ⟨fun _ _ _ => .error "open refused", fun _ _ => .ok 0⟩

/-- Events for the C7 witness. -/
def c7WEvents : List AcceptEvent :=
  [.accepted (.tcpS "1.2.3.4" 443 0), .accepted (.otherS 1)]

/-- Witness for the amended C7 at concrete inputs. -/
theorem c7_amended_error_containment_witness :
    forwardLoop c7EnvA c7WEvents = forwardLoop c7EnvB c7WEvents ∧
    forwardLoop c7EnvC [AcceptEvent.accepted (.tcpS "9.9.9.9" 443 2)] =
      ([], some "open refused") :=
  ⟨(c7_amended_error_containment c7EnvA c7EnvB c7WEvents rfl).1,
    (c7_amended_error_containment c7EnvC c7EnvC [] rfl).2.2.1
      "9.9.9.9" 443 2 "open refused" [] rfl⟩

/-- C8: for every accepted TCP or UDP connection the loop requests exactly
one logical stream keyed by that connection's protocol kind, peer IP and
peer port, and on success spawns a bridge owning the connection and the
stream while the loop continues independently; every other connection kind
is ignored with no stream request. -/
theorem c8_accept_dispatch (env : ForwardEnv) (s : IpStackStream) :
    (∀ ip port cid, s = .tcpS ip port cid →
      (forwardHandle env s).1 = [(.tcp, ip, port)] ∧
      ∀ sid, env.clientNewStream .tcp ip port = .ok sid →
        (forwardHandle env s).2 = .spawnedB ⟨cid, sid⟩ ∧
        ∀ rest, forwardLoop env (.accepted s :: rest) =
          ((⟨cid, sid⟩ : Bridge) :: (forwardLoop env rest).1,
            (forwardLoop env rest).2)) ∧
    (∀ ip port cid, s = .udpS ip port cid →
      (forwardHandle env s).1 = [(.udp, ip, port)] ∧
      ∀ sid, env.clientNewStream .udp ip port = .ok sid →
        (forwardHandle env s).2 = .spawnedB ⟨cid, sid⟩ ∧
        ∀ rest, forwardLoop env (.accepted s :: rest) =
          ((⟨cid, sid⟩ : Bridge) :: (forwardLoop env rest).1,
            (forwardLoop env rest).2)) ∧
    (∀ cid, s = .otherS cid →
      forwardHandle env s = ([], .ignoredB) ∧
      ∀ rest, forwardLoop env (.accepted s :: rest) = forwardLoop env rest) := by
  refine ⟨fun ip port cid hs => ?_, fun ip port cid hs => ?_, fun cid hs => ?_⟩
  · subst hs
    refine ⟨rfl, fun sid hok => ⟨by simp [forwardHandle, hok], fun rest => ?_⟩⟩
    simp only [forwardLoop, forwardHandle, hok]
  · subst hs
    refine ⟨rfl, fun sid hok => ⟨by simp [forwardHandle, hok], fun rest => ?_⟩⟩
    simp only [forwardLoop, forwardHandle, hok]
  · subst hs
    exact ⟨rfl, fun rest => by simp [forwardLoop, forwardHandle]⟩

/-- Environment for the C8 witness: stream opening yields stream 11. -/
def c8Env : ForwardEnv := ⟨fun _ _ _ => .ok 11, fun _ _ => .ok 0⟩

/-- Witness for C8 at concrete inputs (the scenario of spec §8: a TCP
connection from 93.184.216.34:443). -/
theorem c8_accept_dispatch_witness :
    (forwardHandle c8Env (.tcpS "93.184.216.34" 443 4)).1 =
      [(.tcp, "93.184.216.34", 443)] ∧
    (forwardHandle c8Env (.tcpS "93.184.216.34" 443 4)).2 = .spawnedB ⟨4, 11⟩ ∧
    forwardHandle c8Env (.otherS 9) = ([], .ignoredB) := by
  have h := c8_accept_dispatch c8Env (.tcpS "93.184.216.34" 443 4)
  have h2 := c8_accept_dispatch c8Env (.otherS 9)
  exact ⟨(h.1 _ _ _ rfl).1, ((h.1 _ _ _ rfl).2 11 rfl).1, (h2.2.2 9 rfl).1⟩

end Forward

namespace Whisper

/-! ### Helper lemmas -/

/-- `whisper_init` on a null pointer. -/
lemma whisper_init_none (fd : Int) (mtu : Nat) (env : InitEnv) (st : WhisperState) :
    whisper_init fd none mtu env st = (false, st, ⟨false, false⟩) := rfl

/-- `whisper_init` on a non-null pointer goes through the lossy conversion. -/
lemma whisper_init_some (fd : Int) (bytes : List Nat) (mtu : Nat) (env : InitEnv)
    (st : WhisperState) :
    whisper_init fd (some bytes) mtu env st =
      whisperInitWithStr fd (String.mk (utf8Lossy bytes)) mtu env st := rfl

/-- Unfolding of `whisperInitWithStr` in projection form. -/
lemma whisperInitWithStr_eq (fd : Int) (s : String) (mtu : Nat) (env : InitEnv)
    (st : WhisperState) :
    whisperInitWithStr fd s mtu env st =
      if env.runtimeOk then
        (exceptOk (whisperInitCore fd s mtu env st).1,
          (whisperInitCore fd s mtu env st).2.1,
          (whisperInitCore fd s mtu env st).2.2)
      else (false, st, ⟨false, false⟩) := by
  rcases h : whisperInitCore fd s mtu env st with ⟨r, st', eff⟩
  unfold whisperInitWithStr
  rw [h]

/-- With `Initialized` or `Running` populated, the init core fails with
`AlreadyInitialized` and touches nothing. -/
lemma whisperInitCore_populated (fd : Int) (s : String) (mtu : Nat) (env : InitEnv)
    (st : WhisperState) (h : st.1.isSome ∨ st.2.isSome) :
    whisperInitCore fd s mtu env st =
      (.error .AlreadyInitialized, st, ⟨false, false⟩) := by
  have hb : (st.1.isSome || st.2.isSome) = true := by
    rcases h with h | h <;> simp [h]
  simp [whisperInitCore, hb]

/-- The init core either leaves the state unchanged (every failure path) or,
from the empty state, stores exactly one fresh `Initialized` value. -/
lemma whisperInitCore_state (fd : Int) (s : String) (mtu : Nat) (env : InitEnv)
    (st : WhisperState) :
    ((whisperInitCore fd s mtu env st).1 = .ok () →
      st.1 = none ∧ st.2 = none ∧
        ∃ i, (whisperInitCore fd s mtu env st).2.1 = (some i, none)) ∧
    ((whisperInitCore fd s mtu env st).1 ≠ .ok () →
      (whisperInitCore fd s mtu env st).2.1 = st) := by
  unfold whisperInitCore
  split
  · exact ⟨fun h => absurd h (by simp), fun _ => rfl⟩
  · rename_i hg
    have h1 : st.1 = none := by
      cases h : st.1
      · rfl
      · rw [h] at hg; simp at hg
    have h2 : st.2 = none := by
      cases h : st.2
      · rfl
      · rw [h] at hg; simp at hg
    split
    · exact ⟨fun h => absurd h (by simp), fun _ => rfl⟩
    · split
      · exact ⟨fun h => absurd h (by simp), fun _ => rfl⟩
      · split
        · exact ⟨fun h => absurd h (by simp), fun _ => rfl⟩
        · split
          · exact ⟨fun h => absurd h (by simp), fun _ => rfl⟩
          · exact ⟨fun _ => ⟨h1, h2, _, by rw [h2]⟩, fun h => absurd rfl h⟩

/-- The state after `whisper_init` is either unchanged or, from the empty
state, freshly `(some i, none)`. -/
lemma whisper_init_state (fd : Int) (ws : Option (List Nat)) (mtu : Nat)
    (env : InitEnv) (st : WhisperState) :
    (whisper_init fd ws mtu env st).2.1 = st ∨
    (st.1 = none ∧ st.2 = none ∧
      ∃ i, (whisper_init fd ws mtu env st).2.1 = (some i, none)) := by
  cases ws with
  | none => exact Or.inl rfl
  | some bytes =>
    rw [whisper_init_some, whisperInitWithStr_eq]
    cases hrt : env.runtimeOk
    · exact Or.inl (by simp)
    · simp only [if_true]
      rcases whisperInitCore_state fd (String.mk (utf8Lossy bytes)) mtu env st
        with ⟨hok, hne⟩
      by_cases h : (whisperInitCore fd (String.mk (utf8Lossy bytes)) mtu env st).1 = .ok ()
      · rcases hok h with ⟨ha, hb, i, hi⟩
        exact Or.inr ⟨ha, hb, i, by simpa using hi⟩
      · exact Or.inl (by simpa using hne h)

/-- If `whisper_init` reports success, the state became `(some i, none)`. -/
lemma whisper_init_success_state (fd : Int) (ws : Option (List Nat)) (mtu : Nat)
    (env : InitEnv) (st : WhisperState)
    (h : (whisper_init fd ws mtu env st).1 = true) :
    ∃ i, (whisper_init fd ws mtu env st).2.1 = (some i, none) := by
  cases ws with
  | none => simp [whisper_init_none] at h
  | some bytes =>
    rw [whisper_init_some, whisperInitWithStr_eq] at h ⊢
    cases hrt : env.runtimeOk
    · rw [hrt] at h; simp at h
    · rw [hrt] at h
      simp only [if_true] at h ⊢
      rcases whisperInitCore_state fd (String.mk (utf8Lossy bytes)) mtu env st
        with ⟨hok, _⟩
      rcases hr : (whisperInitCore fd (String.mk (utf8Lossy bytes)) mtu env st).1
        with e | u
      · rw [hr] at h; simp [exceptOk] at h
      · rcases hok (by rw [hr]) with ⟨_, _, i, hi⟩
        exact ⟨i, by simpa using hi⟩

/-- Unfolding of `whisper_start` in projection form. -/
lemma whisper_start_eq (env : StartEnv) (st : WhisperState) :
    whisper_start env st =
      if env.runtimeOk then
        (exceptOk (whisperStartCore env st).1, (whisperStartCore env st).2)
      else (false, st) := by
  rcases h : whisperStartCore env st with ⟨r, st'⟩
  unfold whisper_start
  rw [h]

/-- Unfolding of `whisper_stop` in projection form. -/
lemma whisper_stop_eq (env : StopEnv) (st : WhisperState) :
    whisper_stop env st =
      if env.runtimeOk then
        (exceptOk (whisperStopCore env st).1, (whisperStopCore env st).2)
      else (false, st) := by
  rcases h : whisperStopCore env st with ⟨r, st'⟩
  unfold whisper_stop
  rw [h]

/-- The start core with `Running` populated. -/
lemma whisperStartCore_running (env : StartEnv) (st : WhisperState)
    (r : WhisperRunningState) (h : st.2 = some r) :
    whisperStartCore env st = (.error .AlreadyStarted, st) := by
  unfold whisperStartCore
  rw [h]
  rfl

/-- The start core from the fully empty state. -/
lemma whisperStartCore_empty (env : StartEnv) (st : WhisperState)
    (h1 : st.1 = none) (h2 : st.2 = none) :
    whisperStartCore env st = (.error .NotInitialized, st) := by
  unfold whisperStartCore
  rw [h1, h2]
  rfl

/-- The start core from `Initialized`: the state transition happens before
`start_whisper` is consulted. -/
lemma whisperStartCore_init (env : StartEnv) (st : WhisperState)
    (i : WhisperInitState) (h1 : st.1 = some i) (h2 : st.2 = none) :
    whisperStartCore env st =
      (match env.startWhisper i.mux i.tun i.mtu env.freshChannel with
        | .ok _ => .ok ()
        | .error e => .error (.Other e),
        ((none : Option WhisperInitState),
          some ⟨i.socketaddr, env.freshChannel⟩)) := by
  unfold whisperStartCore
  rw [h1, h2]
  cases h : env.startWhisper i.mux i.tun i.mtu env.freshChannel <;> simp [h]

/-- The state after `whisper_start` is unchanged or `(none, some r)`. -/
lemma whisper_start_state (env : StartEnv) (st : WhisperState) :
    (whisper_start env st).2 = st ∨
    (st.2 = none ∧ ∃ i, st.1 = some i ∧
      (whisper_start env st).2 = (none, some ⟨i.socketaddr, env.freshChannel⟩)) := by
  rw [whisper_start_eq]
  cases hrt : env.runtimeOk
  · exact Or.inl (by simp)
  · simp only [if_true]
    cases h2 : st.2 with
    | some r => exact Or.inl (by simp [whisperStartCore_running env st r h2])
    | none =>
      cases h1 : st.1 with
      | none => exact Or.inl (by simp [whisperStartCore_empty env st h1 h2])
      | some i =>
        refine Or.inr ⟨rfl, i, rfl, ?_⟩
        rw [whisperStartCore_init env st i h1 h2]

/-- The stop core with `Running` empty. -/
lemma whisperStopCore_empty (env : StopEnv) (st : WhisperState) (h : st.2 = none) :
    whisperStopCore env st = (.error .NotStarted, st) := by
  unfold whisperStopCore
  rw [h]

/-- The stop core with `Running` populated: the take happens before the
send. -/
lemma whisperStopCore_running (env : StopEnv) (st : WhisperState)
    (r : WhisperRunningState) (h : st.2 = some r) :
    whisperStopCore env st =
      (if env.sendOk r.channel then .ok () else .error (.Other "send"),
        (st.1, none)) := by
  unfold whisperStopCore
  rw [h]
  cases hs : env.sendOk r.channel <;> simp [hs]

/-- The state after `whisper_stop` is unchanged or `(st.1, none)`. -/
lemma whisper_stop_state (env : StopEnv) (st : WhisperState) :
    (whisper_stop env st).2 = st ∨ (whisper_stop env st).2 = (st.1, none) := by
  rw [whisper_stop_eq]
  cases hrt : env.runtimeOk
  · exact Or.inl (by simp)
  · simp only [if_true]
    cases h2 : st.2 with
    | none => exact Or.inl (by simp [whisperStopCore_empty env st h2])
    | some r => exact Or.inr (by simp [whisperStopCore_running env st r h2])

/-- Every single FFI call preserves mutual exclusion of the two state
components. -/
lemma stepOp_preserves (st : WhisperState) (op : WhisperOp)
    (h : MutuallyExclusive st) : MutuallyExclusive (stepOp st op) := by
  cases op with
  | opInit fd ws mtu env =>
    rcases whisper_init_state fd ws mtu env st with heq | ⟨_, _, i, hi⟩
    · show MutuallyExclusive (whisper_init fd ws mtu env st).2.1
      rw [heq]; exact h
    · show MutuallyExclusive (whisper_init fd ws mtu env st).2.1
      rw [hi]; simp [MutuallyExclusive]
  | opStart env =>
    rcases whisper_start_state env st with heq | ⟨_, i, _, hi⟩
    · show MutuallyExclusive (whisper_start env st).2
      rw [heq]; exact h
    · show MutuallyExclusive (whisper_start env st).2
      rw [hi]; simp [MutuallyExclusive]
  | opStop env =>
    rcases whisper_stop_state env st with heq | hne
    · show MutuallyExclusive (whisper_stop env st).2
      rw [heq]; exact h
    · show MutuallyExclusive (whisper_stop env st).2
      rw [hne]; simp [MutuallyExclusive]
  | opGetWsIp rt => exact h

/-- Mutual exclusion is preserved along any suffix of calls. -/
lemma foldl_preserves (ops : List WhisperOp) :
    ∀ st : WhisperState, MutuallyExclusive st →
      MutuallyExclusive (ops.foldl stepOp st) := by
  induction ops with
  | nil => intro st h; exact h
  | cons op rest ih =>
    intro st h
    exact ih (stepOp st op) (stepOp_preserves st op h)

/-! ### Claim theorems -/

/-- C5: for every sequence of `whisper_init`, `whisper_start`,
`whisper_stop` and `whisper_get_ws_ip` calls starting from the empty state,
the session state never holds both an `Initialized` and a `Running`
component at the same time. -/
theorem c5_mutual_exclusion (ops : List WhisperOp) :
    MutuallyExclusive (execOps ops) :=
  foldl_preserves ops (none, none) (by simp [MutuallyExclusive])

/-- C2: `whisper_init` returns `false`, with the core failing with
`AlreadyInitialized`, whenever either state component is populated, and it
leaves the state unchanged; hence a successful `initialize` followed
immediately by a second `initialize` makes the second call return `false`
and leaves the stored state unchanged. -/
theorem c2_init_already_initialized
    (fd : Int) (ws : Option (List Nat)) (mtu : Nat) (env : InitEnv)
    (fd' : Int) (ws' : Option (List Nat)) (mtu' : Nat) (env' : InitEnv)
    (st st₀ : WhisperState) (h : st.1.isSome ∨ st.2.isSome) :
    ((whisper_init fd ws mtu env st).1 = false ∧
      (whisper_init fd ws mtu env st).2.1 = st) ∧
    (∀ s, (whisperInitCore fd s mtu env st).1 = .error .AlreadyInitialized) ∧
    ((whisper_init fd' ws' mtu' env' st₀).1 = true →
      (whisper_init fd ws mtu env ((whisper_init fd' ws' mtu' env' st₀).2.1)).1 = false ∧
      (whisper_init fd ws mtu env ((whisper_init fd' ws' mtu' env' st₀).2.1)).2.1 =
        (whisper_init fd' ws' mtu' env' st₀).2.1) := by
  have key : ∀ st1 : WhisperState, st1.1.isSome ∨ st1.2.isSome →
      (whisper_init fd ws mtu env st1).1 = false ∧
        (whisper_init fd ws mtu env st1).2.1 = st1 := by
    intro st1 h1
    cases ws with
    | none => exact ⟨rfl, rfl⟩
    | some bytes =>
      rw [whisper_init_some, whisperInitWithStr_eq]
      cases hrt : env.runtimeOk
      · exact ⟨by simp, by simp⟩
      · simp only [if_true]
        rw [whisperInitCore_populated fd _ mtu env st1 h1]
        exact ⟨rfl, rfl⟩
  refine ⟨key st h, fun s => ?_, fun hsucc => ?_⟩
  · rw [whisperInitCore_populated fd s mtu env st h]
  · rcases whisper_init_success_state fd' ws' mtu' env' st₀ hsucc with ⟨i, hi⟩
    exact key _ (by rw [hi]; simp)

/-- Environment for the C2 witness: valid URL, reachable endpoint, valid
device descriptor. -/
def c2Env : InitEnv :=
  ⟨true, fun s => some s, fun _ => .ok (0, some "10.1.1.1:80"), fun _ => some 0⟩

/-- A populated state for the C2 witness. -/
def c2St : WhisperState := (some ⟨0, 0, 1500, "10.1.1.1:80"⟩, none)

/-- Witness for C2 at concrete inputs. -/
theorem c2_init_already_initialized_witness :
    ((whisper_init 3 (some [97]) 1500 c2Env c2St).1 = false ∧
      (whisper_init 3 (some [97]) 1500 c2Env c2St).2.1 = c2St) ∧
    (whisperInitCore 3 "x" 1500 c2Env c2St).1 = .error .AlreadyInitialized ∧
    ((whisper_init 3 (some [97]) 1500 c2Env
        ((whisper_init 4 (some [98]) 1400 c2Env ((none, none) : WhisperState)).2.1)).1 = false ∧
      (whisper_init 3 (some [97]) 1500 c2Env
        ((whisper_init 4 (some [98]) 1400 c2Env ((none, none) : WhisperState)).2.1)).2.1 =
        (whisper_init 4 (some [98]) 1400 c2Env ((none, none) : WhisperState)).2.1) := by
  have h := c2_init_already_initialized 3 (some [97]) 1500 c2Env 4 (some [98]) 1400 c2Env
    c2St ((none, none) : WhisperState) (Or.inl rfl)
  exact ⟨h.1, h.2.1 "x", h.2.2 (by decide)⟩

/-- C3: `whisper_start` returns `true` only when the state holds
`Initialized` and not `Running`; it fails with `AlreadyStarted` when
`Running` exists, with `NotInitialized` when neither component exists, and
on success it consumes `Initialized` and stores a `Running` state. -/
theorem c3_start_transitions (env : StartEnv) (st : WhisperState) :
    ((whisper_start env st).1 = true → st.1.isSome ∧ st.2 = none) ∧
    (∀ r, st.2 = some r → (whisperStartCore env st).1 = .error .AlreadyStarted) ∧
    (st.1 = none → st.2 = none → (whisperStartCore env st).1 = .error .NotInitialized) ∧
    (∀ i, st.1 = some i → (whisper_start env st).1 = true →
      (whisper_start env st).2 = (none, some ⟨i.socketaddr, env.freshChannel⟩)) := by
  refine ⟨fun h => ?_, fun r h2 => ?_, fun h1 h2 => ?_, fun i h1 hs => ?_⟩
  · rw [whisper_start_eq] at h
    cases hrt : env.runtimeOk
    · rw [hrt] at h; simp at h
    · rw [hrt] at h
      simp only [if_true] at h
      cases h2 : st.2 with
      | some r =>
        rw [whisperStartCore_running env st r h2] at h
        simp [exceptOk] at h
      | none =>
        cases h1 : st.1 with
        | none =>
          rw [whisperStartCore_empty env st h1 h2] at h
          simp [exceptOk] at h
        | some i => simp
  · rw [whisperStartCore_running env st r h2]
  · rw [whisperStartCore_empty env st h1 h2]
  · rw [whisper_start_eq] at hs ⊢
    cases hrt : env.runtimeOk
    · rw [hrt] at hs; simp at hs
    · rw [hrt] at hs
      simp only [if_true] at hs ⊢
      cases h2 : st.2 with
      | some r =>
        rw [whisperStartCore_running env st r h2] at hs
        simp [exceptOk] at hs
      | none => rw [whisperStartCore_init env st i h1 h2]

/-- Environment for the C3 witness: `start_whisper` succeeds. -/
def c3Env : StartEnv := ⟨true, 7, fun _ _ _ _ => .ok ()⟩

/-- The `Initialized` value for the C3 witness. -/
def c3Init : WhisperInitState := ⟨1, 2, 1500, "93.184.216.34:443"⟩

/-- An `Initialized` state for the C3 witness. -/
def c3St : WhisperState := (some c3Init, none)

/-- Witness for C3 at concrete inputs. -/
theorem c3_start_transitions_witness :
    (c3St.1.isSome ∧ c3St.2 = none) ∧
    (whisperStartCore c3Env ((none, some ⟨"10.0.0.2:80", 3⟩) : WhisperState)).1 =
      .error .AlreadyStarted ∧
    (whisperStartCore c3Env ((none, none) : WhisperState)).1 = .error .NotInitialized ∧
    (whisper_start c3Env c3St).2 = (none, some ⟨c3Init.socketaddr, c3Env.freshChannel⟩) := by
  refine ⟨(c3_start_transitions c3Env c3St).1 (by decide),
    (c3_start_transitions c3Env ((none, some ⟨"10.0.0.2:80", 3⟩) : WhisperState)).2.1
      ⟨"10.0.0.2:80", 3⟩ rfl,
    (c3_start_transitions c3Env ((none, none) : WhisperState)).2.2.1 rfl rfl,
    (c3_start_transitions c3Env c3St).2.2.2 c3Init rfl (by decide)⟩

/-- C4: `whisper_stop` returns `false` unless the state holds `Running`;
after a successful stop the state is `(none, none)` again (given that
`Initialized` was empty, which mutual exclusion guarantees for reachable
states), so a subsequent `whisper_init` can succeed. -/
theorem c4_stop_transitions (env : StopEnv) (st : WhisperState) :
    ((whisper_stop env st).1 = true → st.2.isSome) ∧
    ((whisper_stop env st).1 = true → (whisper_stop env st).2 = (st.1, none)) ∧
    (st.1 = none → (whisper_stop env st).1 = true →
      (whisper_stop env st).2 = ((none, none) : WhisperState) ∧
      ∃ (fd : Int) (ws : Option (List Nat)) (mtu : Nat) (env' : InitEnv),
        (whisper_init fd ws mtu env' (whisper_stop env st).2).1 = true) := by
  have hstate : (whisper_stop env st).1 = true →
      (whisper_stop env st).2 = (st.1, none) := by
    intro h
    rw [whisper_stop_eq] at h ⊢
    cases hrt : env.runtimeOk
    · rw [hrt] at h; simp at h
    · rw [hrt] at h
      simp only [if_true] at h ⊢
      cases h2 : st.2 with
      | none =>
        rw [whisperStopCore_empty env st h2] at h
        simp [exceptOk] at h
      | some r => rw [whisperStopCore_running env st r h2]
  refine ⟨fun h => ?_, hstate, fun h1 h => ?_⟩
  · rw [whisper_stop_eq] at h
    cases hrt : env.runtimeOk
    · rw [hrt] at h; simp at h
    · rw [hrt] at h
      simp only [if_true] at h
      cases h2 : st.2 with
      | none =>
        rw [whisperStopCore_empty env st h2] at h
        simp [exceptOk] at h
      | some r => simp
  · have h2 := hstate h
    rw [h1] at h2
    refine ⟨h2, 0, some [97], 0,
      ⟨true, fun s => some s, fun _ => .ok (0, some "10.0.0.1:80"), fun _ => some 0⟩, ?_⟩
    rw [h2]
    decide

/-- An environment for the C4 witness: the control-channel send succeeds. -/
def c4Env : StopEnv := ⟨true, fun _ => true⟩

/-- A `Running` state for the C4 witness. -/
def c4St : WhisperState := (none, some ⟨"10.0.0.1:80", 3⟩)

/-- Witness for C4 at concrete inputs. -/
theorem c4_stop_transitions_witness :
    c4St.2.isSome ∧
    (whisper_stop c4Env c4St).2 = (c4St.1, none) ∧
    ((whisper_stop c4Env c4St).2 = ((none, none) : WhisperState) ∧
      ∃ (fd : Int) (ws : Option (List Nat)) (mtu : Nat) (env' : InitEnv),
        (whisper_init fd ws mtu env' (whisper_stop c4Env c4St).2).1 = true) := by
  refine ⟨(c4_stop_transitions c4Env c4St).1 (by decide),
    (c4_stop_transitions c4Env c4St).2.1 (by decide),
    (c4_stop_transitions c4Env c4St).2.2 rfl (by decide)⟩

/-- C6: the remote address is carried verbatim from `Initialized` into
`Running` by `whisper_start`, so `whisper_get_ws_ip` returns the identical
result immediately before and immediately after a successful start, and
returns null on the empty state. -/
theorem c6_remote_address_preserved (env : StartEnv) (st : WhisperState) (rt : Bool)
    (h : (whisper_start env st).1 = true) :
    whisper_get_ws_ip rt ((whisper_start env st).2) = whisper_get_ws_ip rt st ∧
    (∀ rt' : Bool, whisper_get_ws_ip rt' ((none, none) : WhisperState) = none) := by
  refine ⟨?_, fun rt' => by cases rt' <;> rfl⟩
  rw [whisper_start_eq] at h ⊢
  cases hrt : env.runtimeOk
  · rw [hrt] at h; simp at h
  · rw [hrt] at h
    simp only [if_true] at h ⊢
    cases h2 : st.2 with
    | some r =>
      rw [whisperStartCore_running env st r h2] at h
      simp [exceptOk] at h
    | none =>
      cases h1 : st.1 with
      | none =>
        rw [whisperStartCore_empty env st h1 h2] at h
        simp [exceptOk] at h
      | some i =>
        rw [whisperStartCore_init env st i h1 h2]
        show whisper_get_ws_ip rt (none, some ⟨i.socketaddr, env.freshChannel⟩) =
          whisper_get_ws_ip rt st
        unfold whisper_get_ws_ip
        cases rt
        · rfl
        · simp only [if_true]
          rw [h1]

/-- Environment for the C6 witness. -/
def c6Env : StartEnv := ⟨true, 9, fun _ _ _ _ => .ok ()⟩

/-- An `Initialized` state for the C6 witness. -/
def c6St : WhisperState := (some ⟨5, 6, 1400, "82.0.0.1:443"⟩, none)

/-- Witness for C6 at concrete inputs. -/
theorem c6_remote_address_preserved_witness :
    whisper_get_ws_ip true ((whisper_start c6Env c6St).2) =
      whisper_get_ws_ip true c6St ∧
    (∀ rt' : Bool, whisper_get_ws_ip rt' ((none, none) : WhisperState) = none) :=
  c6_remote_address_preserved c6Env c6St true (by decide)

/-- Environment for the C1 counterexample: the runtime starts, but
`start_whisper` fails after the `Initialized → Running` transition has
already been applied. -/
def c1Env : StartEnv := ⟨true, 7, fun _ _ _ _ => .error "start failed"⟩

/-- An `Initialized` state for the C1 counterexample. -/
def c1St : WhisperState := (some ⟨1, 2, 1500, "1.2.3.4:80"⟩, none)

/-- C1 counterexample: `whisper_start` returns `false` (because
`start_whisper` failed) yet the session state afterwards differs from the
state before the call — `Initialized` was consumed and `Running` stored, so
a failed start does not always leave the prior state unchanged. -/
theorem c1_counterexample :
    (whisper_start c1Env c1St).1 = false ∧
    (whisper_start c1Env c1St).2 ≠ c1St := by
  exact ⟨rfl, by decide⟩

/-- Stop environment for the C1 amended witness: the send fails. -/
def c1WStopEnv : StopEnv := ⟨true, fun _ => false⟩

/-- A `Running` state for the C1 amended witness. -/
def c1WSt : WhisperState := (none, some ⟨"5.5.5.5:1", 3⟩)

/-- C1 (amended): a failed `whisper_start` or `whisper_stop` leaves the
state unchanged on every failure path that precedes the state transition
(runtime failure, `AlreadyStarted`, `NotInitialized`, `NotStarted`); on the
post-transition failure paths the call returns `false` with the transition
already applied: a `start_whisper` failure leaves `Initialized` consumed and
`Running` stored, a control-channel send failure leaves `Running` consumed. -/
theorem c1_amended_failure_paths (envS : StartEnv) (envT : StopEnv)
    (st : WhisperState) :
    ((whisper_start envS st).1 = false →
      (whisper_start envS st).2 = st ∨
      (envS.runtimeOk = true ∧ st.2 = none ∧
        ∃ i, st.1 = some i ∧
          (∃ e, envS.startWhisper i.mux i.tun i.mtu envS.freshChannel = .error e) ∧
          (whisper_start envS st).2 =
            (none, some ⟨i.socketaddr, envS.freshChannel⟩))) ∧
    ((whisper_stop envT st).1 = false →
      (whisper_stop envT st).2 = st ∨
      (envT.runtimeOk = true ∧
        ∃ r, st.2 = some r ∧ envT.sendOk r.channel = false ∧
          (whisper_stop envT st).2 = (st.1, none))) := by
  constructor
  · intro hf
    rw [whisper_start_eq] at hf ⊢
    cases hrt : envS.runtimeOk
    · exact Or.inl (by simp)
    · rw [hrt] at hf
      simp only [if_true] at hf ⊢
      cases h2 : st.2 with
      | some r =>
        rw [whisperStartCore_running envS st r h2]
        exact Or.inl rfl
      | none =>
        cases h1 : st.1 with
        | none =>
          rw [whisperStartCore_empty envS st h1 h2]
          exact Or.inl rfl
        | some i =>
          rw [whisperStartCore_init envS st i h1 h2] at hf ⊢
          cases hw : envS.startWhisper i.mux i.tun i.mtu envS.freshChannel with
          | ok u => rw [hw] at hf; simp [exceptOk] at hf
          | error e =>
            exact Or.inr ⟨by trivial, by trivial, i, by trivial, ⟨e, hw⟩, by trivial⟩
  · intro hf
    rw [whisper_stop_eq] at hf ⊢
    cases hrt : envT.runtimeOk
    · exact Or.inl (by simp)
    · rw [hrt] at hf
      simp only [if_true] at hf ⊢
      cases h2 : st.2 with
      | none =>
        rw [whisperStopCore_empty envT st h2]
        exact Or.inl rfl
      | some r =>
        rw [whisperStopCore_running envT st r h2] at hf ⊢
        cases hs : envT.sendOk r.channel with
        | true => rw [hs] at hf; simp [exceptOk] at hf
        | false => exact Or.inr ⟨by trivial, r, by trivial, hs, by trivial⟩

/-- Witness for the amended C1 at concrete inputs: a post-transition start
failure and a post-transition stop failure. -/
theorem c1_amended_failure_paths_witness :
    ((whisper_start c1Env c1WSt).2 = c1WSt ∨
      (c1Env.runtimeOk = true ∧ c1WSt.2 = none ∧
        ∃ i, c1WSt.1 = some i ∧
          (∃ e, c1Env.startWhisper i.mux i.tun i.mtu c1Env.freshChannel = .error e) ∧
          (whisper_start c1Env c1WSt).2 =
            (none, some ⟨i.socketaddr, c1Env.freshChannel⟩))) ∧
    ((whisper_stop c1WStopEnv c1WSt).2 = c1WSt ∨
      (c1WStopEnv.runtimeOk = true ∧
        ∃ r, c1WSt.2 = some r ∧ c1WStopEnv.sendOk r.channel = false ∧
          (whisper_stop c1WStopEnv c1WSt).2 = (c1WSt.1, none))) := by
  have h := c1_amended_failure_paths c1Env c1WStopEnv c1WSt
  exact ⟨h.1 (by decide), h.2 (by decide)⟩

/-- Environment for the C9 counterexample: valid URL, reachable transport,
but the device descriptor is invalid so TUN creation fails. -/
def c9Env : InitEnv :=
  ⟨true, fun s => some s, fun _ => .ok (0, some "10.0.0.1:80"), fun _ => none⟩

/-- C9 counterexample: with an invalid device descriptor, `whisper_init`
returns `false` and leaves the state unchanged, but the transport connection
HAS been established before the invalid descriptor is detected — the
argument is not rejected before any resource is touched. -/
theorem c9_counterexample :
    (whisper_init (-1) (some [119]) 1500 c9Env ((none, none) : WhisperState)).1 = false ∧
    (whisper_init (-1) (some [119]) 1500 c9Env ((none, none) : WhisperState)).2.1 =
      ((none, none) : WhisperState) ∧
    (whisper_init (-1) (some [119]) 1500 c9Env
      ((none, none) : WhisperState)).2.2.connected = true := by
  exact ⟨rfl, rfl, rfl⟩

/-- C9 (amended): a null endpoint pointer is rejected before any resource
is touched; an endpoint whose converted string is not a valid URL is
rejected before the transport connection and the interface are created; an
invalid device descriptor is detected only when interface creation fails,
after the transport connection has been established — in every case the call
returns `false`, the session state is unmodified and no interface was
created. -/
theorem c9_amended_argument_validation (fd : Int) (bs : List Nat) (mtu : Nat)
    (env : InitEnv) (st : WhisperState) :
    (whisper_init fd none mtu env st = (false, st, ⟨false, false⟩)) ∧
    (env.runtimeOk = true → st.1 = none → st.2 = none →
      env.tryUri (String.mk (utf8Lossy bs)) = none →
      whisper_init fd (some bs) mtu env st = (false, st, ⟨false, false⟩)) ∧
    (∀ uri mux sa, env.runtimeOk = true → st.1 = none → st.2 = none →
      env.tryUri (String.mk (utf8Lossy bs)) = some uri →
      env.connectToWisp uri = .ok (mux, sa) →
      env.createTun fd = none →
      whisper_init fd (some bs) mtu env st = (false, st, ⟨true, false⟩)) := by
  refine ⟨rfl, fun hrt h1 h2 htu => ?_, fun uri mux sa hrt h1 h2 htu hc ht => ?_⟩
  · rw [whisper_init_some, whisperInitWithStr_eq, hrt]
    simp [whisperInitCore, h1, h2, htu, exceptOk]
  · rw [whisper_init_some, whisperInitWithStr_eq, hrt]
    simp [whisperInitCore, h1, h2, htu, hc, ht, exceptOk]

/-- Environment for the C9 amended witness: URL parsing fails. -/
def c9WEnvU : InitEnv :=
  ⟨true, fun _ => none, fun _ => .ok (0, some "10.0.0.1:80"), fun _ => some 0⟩

/-- Witness for the amended C9 at concrete inputs. -/
theorem c9_amended_argument_validation_witness :
    (whisper_init 3 none 1500 c9WEnvU ((none, none) : WhisperState) =
      (false, ((none, none) : WhisperState), ⟨false, false⟩)) ∧
    (whisper_init 3 (some [255]) 1500 c9WEnvU ((none, none) : WhisperState) =
      (false, ((none, none) : WhisperState), ⟨false, false⟩)) ∧
    (whisper_init (-1) (some [119]) 1500 c9Env ((none, none) : WhisperState) =
      (false, ((none, none) : WhisperState), ⟨true, false⟩)) := by
  refine ⟨(c9_amended_argument_validation 3 [0] 1500 c9WEnvU ((none, none) : WhisperState)).1,
    (c9_amended_argument_validation 3 [255] 1500 c9WEnvU
      ((none, none) : WhisperState)).2.1 rfl rfl rfl rfl,
    (c9_amended_argument_validation (-1) [119] 1500 c9Env
      ((none, none) : WhisperState)).2.2 (String.mk (utf8Lossy [119])) 0
      (some "10.0.0.1:80") rfl rfl rfl rfl rfl rfl⟩

/-- C10: a non-null endpoint whose bytes are not valid UTF-8 is never
rejected for encoding reasons: the bytes are decoded lossily and the call
behaves exactly as on the converted string, so when the converted string
parses as a URL and the transport, interface and address resolution succeed,
the call succeeds. -/
theorem c10_lossy_conversion (fd : Int) (bs : List Nat) (mtu : Nat)
    (env : InitEnv) (st : WhisperState) (h : validUtf8 bs = false) :
    whisper_init fd (some bs) mtu env st =
      whisperInitWithStr fd (String.mk (utf8Lossy bs)) mtu env st ∧
    (env.runtimeOk = true → st.1 = none → st.2 = none →
      ∀ uri mux sa tun, env.tryUri (String.mk (utf8Lossy bs)) = some uri →
        env.connectToWisp uri = .ok (mux, some sa) →
        env.createTun fd = some tun →
        (whisper_init fd (some bs) mtu env st).1 = true) := by
  refine ⟨rfl, fun hrt h1 h2 uri mux sa tun htu hc ht => ?_⟩
  rw [whisper_init_some, whisperInitWithStr_eq, hrt]
  simp [whisperInitCore, h1, h2, htu, hc, ht, exceptOk]

/-- Environment for the C10 witness: everything downstream succeeds. -/
def c10Env : InitEnv :=
  ⟨true, fun s => some s, fun _ => .ok (7, some "10.9.9.9:80"), fun _ => some 1⟩

/-- Witness for C10: the byte `0xFF` is not valid UTF-8, yet `whisper_init`
succeeds on it. -/
theorem c10_lossy_conversion_witness :
    validUtf8 [255] = false ∧
    (whisper_init 3 (some [255]) 1500 c10Env ((none, none) : WhisperState)).1 = true := by
  refine ⟨by decide,
    (c10_lossy_conversion 3 [255] 1500 c10Env ((none, none) : WhisperState)
      (by decide)).2 rfl rfl rfl (String.mk (utf8Lossy [255])) 7 "10.9.9.9:80" 1
      rfl rfl rfl⟩

end Whisper

